import Mathlib

/-!
Verification of the uc-intg-nanoleaf integration.

This file gives a shallow embedding, in Lean, of the pure logic of the
Python sources (uc_intg_nanoleaf/remote.py, config.py, client.py,
setup.py) and proves properties of that logic.  Time values are embedded
as rationals, Python dictionaries as association lists, and network or
asyncio effects as explicit outcome parameters.
-/

/- ## Throttle guard (remote.py, NanoleafRemote._check_throttle)

The remote keeps one global timestamp and one timestamp per device id.
The Python dictionary self._device_throttle is embedded as an
association list with lookup defaulting to 0, exactly matching
dict.get(device_id, 0). -/

structure ThrottleState where
  global_throttle : ℚ := 0
  device_throttle : List (String × ℚ) := []
deriving DecidableEq

/-- Embedding of NanoleafRemote._check_throttle: reject when the global
cooldown (0.1 s) or the per-device cooldown (0.3 s) has not elapsed,
otherwise record the current time as both timestamps and accept. -/
def check_throttle (st : ThrottleState) (device_id : String) (current_time : ℚ) :
    Bool × ThrottleState :=
  if current_time - st.global_throttle < 1/10 then
    (false, st)
  else
    let last_time := (st.device_throttle.lookup device_id).getD 0
    if current_time - last_time < 3/10 then
      (false, st)
    else
      (true, { global_throttle := current_time,
               device_throttle :=
                 (device_id, current_time) ::
                   st.device_throttle.filter (fun p => p.1 != device_id) })

theorem lookup_filter_ne (l : List (String × ℚ)) (k : String) :
    (l.filter (fun p => p.1 != k)).lookup k = none := by
  induction l with
  | nil => rfl
  | cons p t ih =>
    by_cases h : p.1 = k
    · simp [List.filter, h, ih]
    · simp only [List.filter, List.lookup]
      have hb : (p.1 != k) = true := by simp [h]
      rw [hb]
      simp only [List.lookup]
      have hk : (k == p.1) = false := by simp [Ne.symm h]
      rw [hk]
      exact ih

/-- C1: check_throttle returns false, leaving the state alone, exactly
when the global cooldown (0.1 s) or the device cooldown (0.3 s) has not
elapsed; otherwise it records the current time as the new global and
per-device timestamp and returns true.  In particular, starting from the
fresh state and a time t at least 0.3, a second call for the same device
0.05 s later is rejected, and a call for a different device 0.05 s later
is rejected as well (global cooldown). -/
theorem check_throttle_spec (st : ThrottleState) (device_id : String) (now : ℚ) :
    ((now - st.global_throttle < 1/10 ∨
        now - ((st.device_throttle.lookup device_id).getD 0) < 3/10) →
      check_throttle st device_id now = (false, st)) ∧
    ((¬ (now - st.global_throttle < 1/10) ∧
        ¬ (now - ((st.device_throttle.lookup device_id).getD 0) < 3/10)) →
      (check_throttle st device_id now).1 = true ∧
      (check_throttle st device_id now).2.global_throttle = now ∧
      (((check_throttle st device_id now).2.device_throttle.lookup device_id).getD 0 = now)) ∧
    (∀ t : ℚ, 3/10 ≤ t →
      (check_throttle {} "dev1" t).1 = true ∧
      (check_throttle (check_throttle {} "dev1" t).2 "dev1" (t + 1/20)).1 = false ∧
      (check_throttle (check_throttle {} "dev1" t).2 "dev2" (t + 1/20)).1 = false) := by
  refine ⟨?_, ?_, ?_⟩
  · intro h
    unfold check_throttle
    rcases h with h | h
    · rw [if_pos h]
    · by_cases hg : now - st.global_throttle < 1/10
      · rw [if_pos hg]
      · rw [if_neg hg]
        simp only []
        rw [if_pos h]
  · intro ⟨hg, hd⟩
    unfold check_throttle
    rw [if_neg hg]
    simp only []
    rw [if_neg hd]
    refine ⟨rfl, rfl, ?_⟩
    simp [List.lookup]
  · intro t ht
    have hg0 : ¬ (t - ({} : ThrottleState).global_throttle < 1/10) := by
      simp only [ThrottleState.mk.injEq]
      show ¬ (t - 0 < 1/10)
      intro h; nlinarith
    have hd0 : ¬ (t - ((({} : ThrottleState).device_throttle.lookup "dev1").getD 0) < 3/10) := by
      show ¬ (t - ((List.lookup "dev1" []).getD 0) < 3/10)
      simp only [List.lookup, Option.getD_none]
      intro h; nlinarith
    have h1 : check_throttle {} "dev1" t =
        (true, { global_throttle := t, device_throttle := [("dev1", t)] }) := by
      unfold check_throttle
      rw [if_neg hg0]
      simp only []
      rw [if_neg hd0]
      rfl
    refine ⟨by rw [h1], ?_, ?_⟩
    · rw [h1]
      unfold check_throttle
      rw [if_pos (by nlinarith)]
    · rw [h1]
      unfold check_throttle
      rw [if_pos (by nlinarith)]

theorem check_throttle_spec_witness :
    check_throttle {} "dev1" 0 = (false, {}) ∧
    (check_throttle {} "dev1" 1).1 = true ∧
    (check_throttle (check_throttle {} "dev1" 1).2 "dev1" (1 + 1/20)).1 = false ∧
    (check_throttle (check_throttle {} "dev1" 1).2 "dev2" (1 + 1/20)).1 = false := by
  have h0 := (check_throttle_spec {} "dev1" 0).1 (Or.inl (by norm_num))
  have h1 := (check_throttle_spec {} "dev1" 0).2.2 1 (by norm_num)
  exact ⟨h0, h1.1, h1.2.1, h1.2.2⟩

/-- C10: a rejected call leaves the throttle state completely unchanged,
so a throttled command never extends any cooldown window. -/
theorem check_throttle_frame (st : ThrottleState) (device_id : String) (now : ℚ)
    (h : (check_throttle st device_id now).1 = false) :
    (check_throttle st device_id now).2 = st := by
  unfold check_throttle at *
  by_cases hg : now - st.global_throttle < 1/10
  · rw [if_pos hg]
  · rw [if_neg hg] at h ⊢
    simp only [] at h ⊢
    by_cases hd : now - ((st.device_throttle.lookup device_id).getD 0) < 3/10
    · rw [if_pos hd]
    · rw [if_neg hd] at h
      simp at h

theorem check_throttle_frame_witness :
    (check_throttle {} "dev1" 0).2 = {} :=
  check_throttle_frame {} "dev1" 0 (by norm_num [check_throttle])

/- ## String primitives shared by several embedded functions

containsSub embeds the Python substring test (pat in s), pyReplace
embeds str.replace(pat, rep) (non-overlapping, left to right), and
pyStripUnderscore embeds str.strip("_").  All of them work on the
character lists underlying Lean strings. -/

def containsSub (pat : List Char) (s : List Char) : Bool :=
  s.tails.any (fun t => pat.isPrefixOf t)

def pyReplace (pat rep : List Char) : List Char → List Char
  | [] => []
  | c :: rest =>
    if h : pat ≠ [] ∧ pat.isPrefixOf (c :: rest) then
      rep ++ pyReplace pat rep ((c :: rest).drop pat.length)
    else
      c :: pyReplace pat rep rest
termination_by l => l.length
decreasing_by
  · simp only [List.length_drop, List.length_cons]
    have hp : 0 < pat.length := List.length_pos.mpr h.1
    omega
  · simp only [List.length_cons]
    omega

def pyStripUnderscore (l : List Char) : List Char :=
  ((l.dropWhile (fun c => c == '_')).reverse.dropWhile (fun c => c == '_')).reverse

/-- Predicate used in the analysis of the collapse loop of
_clean_command_name: does the list contain two adjacent underscores? -/
def hasDD : List Char → Bool
  | c1 :: c2 :: rest => (c1 == '_' && c2 == '_') || hasDD (c2 :: rest)
  | _ => false

theorem isPrefixOf_dd (c c2 : Char) (l : List Char) :
    List.isPrefixOf ['_', '_'] (c :: c2 :: l) = (c == '_' && c2 == '_') := by
  simp only [List.isPrefixOf, Bool.and_true]
  rw [Bool.eq_iff_iff]
  simp only [Bool.and_eq_true, beq_iff_eq]
  constructor
  · rintro ⟨h1, h2⟩; exact ⟨h1.symm, h2.symm⟩
  · rintro ⟨h1, h2⟩; exact ⟨h1.symm, h2.symm⟩

theorem containsSub_dd (l : List Char) : containsSub ['_', '_'] l = hasDD l := by
  induction l with
  | nil => rfl
  | cons c rest ih =>
    rw [containsSub, List.tails_cons, List.any_cons]
    rw [containsSub] at ih
    rw [ih]
    cases rest with
    | nil => simp [hasDD, List.isPrefixOf]
    | cons c2 rest2 =>
      show (List.isPrefixOf ['_', '_'] (c :: c2 :: rest2) || hasDD (c2 :: rest2)) =
        hasDD (c :: c2 :: rest2)
      rw [isPrefixOf_dd, hasDD]

theorem hasDD_iff (l : List Char) :
    hasDD l = true ↔ ∃ a b, l = a ++ '_' :: '_' :: b := by
  induction l with
  | nil =>
    simp only [hasDD]
    constructor
    · intro h; cases h
    · rintro ⟨a, b, h⟩
      exact absurd h (by simp)
  | cons c rest ih =>
    cases rest with
    | nil =>
      simp only [hasDD]
      constructor
      · intro h; cases h
      · rintro ⟨a, b, h⟩
        rcases a with _ | ⟨x, a⟩
        · simp at h
        · simp at h
    | cons c2 rest2 =>
      rw [hasDD, Bool.or_eq_true, Bool.and_eq_true, beq_iff_eq, beq_iff_eq, ih]
      constructor
      · rintro (⟨rfl, rfl⟩ | ⟨a, b, h⟩)
        · exact ⟨[], rest2, rfl⟩
        · exact ⟨c :: a, b, by rw [List.cons_append, ← h]⟩
      · rintro ⟨a, b, h⟩
        rcases a with _ | ⟨x, a⟩
        · simp at h
          exact Or.inl ⟨h.1, h.2.1⟩
        · rw [List.cons_append, List.cons.injEq] at h
          exact Or.inr ⟨a, b, h.2⟩

theorem hasDD_append_of (a m b : List Char) (h : hasDD m = true) :
    hasDD (a ++ m ++ b) = true := by
  rw [hasDD_iff] at h ⊢
  rcases h with ⟨x, y, rfl⟩
  exact ⟨a ++ x, y ++ b, by simp⟩

theorem pyReplace_dd_length_le (l : List Char) :
    (pyReplace ['_', '_'] ['_'] l).length ≤ l.length := by
  induction l using pyReplace.induct ['_', '_'] ['_'] with
  | case1 => simp [pyReplace]
  | case2 c rest h ih =>
    rw [pyReplace, dif_pos h]
    rcases rest with _ | ⟨c2, rest2⟩
    · exfalso
      have hpre := h.2
      simp [List.isPrefixOf] at hpre
    · have hdrop : (c :: c2 :: rest2).drop (['_', '_'] : List Char).length = rest2 := rfl
      rw [hdrop] at ih ⊢
      simp only [List.length_append, List.length_cons, List.length_nil]
      omega
  | case3 c rest h ih =>
    rw [pyReplace, dif_neg h]
    simp only [List.length_cons]
    omega

theorem pyReplace_dd_length_lt (l : List Char) (hdd : hasDD l = true) :
    (pyReplace ['_', '_'] ['_'] l).length < l.length := by
  induction l using pyReplace.induct ['_', '_'] ['_'] with
  | case1 => cases hdd
  | case2 c rest h ih =>
    rw [pyReplace, dif_pos h]
    rcases rest with _ | ⟨c2, rest2⟩
    · exfalso
      have hpre := h.2
      simp [List.isPrefixOf] at hpre
    · have hdrop : (c :: c2 :: rest2).drop (['_', '_'] : List Char).length = rest2 := rfl
      rw [hdrop]
      have hle := pyReplace_dd_length_le rest2
      simp only [List.length_append, List.length_cons, List.length_nil]
      omega
  | case3 c rest h ih =>
    rw [pyReplace, dif_neg h]
    simp only [List.length_cons]
    have hne : (['_', '_'] : List Char) ≠ [] := by simp
    have hnp : ¬ (List.isPrefixOf ['_', '_'] (c :: rest) = true) := by
      intro hp; exact h ⟨hne, hp⟩
    rcases rest with _ | ⟨c2, rest2⟩
    · cases hdd
    · rw [hasDD, Bool.or_eq_true] at hdd
      rcases hdd with hdd | hdd
      · exfalso
        apply hnp
        rw [isPrefixOf_dd]
        exact hdd
      · have := ih hdd
        omega

theorem pyReplace_dd_mem (l : List Char) (x : Char)
    (hx : x ∈ pyReplace ['_', '_'] ['_'] l) : x ∈ l := by
  induction l using pyReplace.induct ['_', '_'] ['_'] with
  | case1 => simp [pyReplace] at hx
  | case2 c rest h ih =>
    rw [pyReplace, dif_pos h] at hx
    rcases rest with _ | ⟨c2, rest2⟩
    · exfalso
      have hpre := h.2
      simp [List.isPrefixOf] at hpre
    · have hpre := h.2
      rw [isPrefixOf_dd, Bool.and_eq_true, beq_iff_eq, beq_iff_eq] at hpre
      rcases List.mem_append.mp hx with hx2 | hx2
      · rcases List.mem_singleton.mp hx2 with rfl
        simp [hpre.1]
      · have := ih hx2
        exact List.mem_of_mem_drop this
  | case3 c rest h ih =>
    rw [pyReplace, dif_neg h] at hx
    rcases List.mem_cons.mp hx with hx | hx
    · simp [hx]
    · exact List.mem_cons_of_mem _ (ih hx)

/-- Embedding of the collapse loop of _clean_command_name:
while "__" in cleaned: cleaned = cleaned.replace("__", "_"). -/
def collapse_underscores (l : List Char) : List Char :=
  if h : containsSub ['_', '_'] l then
    collapse_underscores (pyReplace ['_', '_'] ['_'] l)
  else l
termination_by l.length
decreasing_by
  · exact pyReplace_dd_length_lt l ((containsSub_dd l) ▸ h)

theorem hasDD_collapse (l : List Char) :
    hasDD (collapse_underscores l) = false := by
  induction l using collapse_underscores.induct with
  | case1 l h ih => rw [collapse_underscores, dif_pos h]; exact ih
  | case2 l h =>
    rw [collapse_underscores, dif_neg h]
    rw [containsSub_dd] at h
    exact Bool.not_eq_true _ ▸ Bool.of_not_eq_true h

theorem collapse_of_not_dd (l : List Char) (h : hasDD l = false) :
    collapse_underscores l = l := by
  rw [collapse_underscores, dif_neg]
  rw [containsSub_dd, h]
  simp

theorem collapse_mem (l : List Char) (x : Char)
    (hx : x ∈ collapse_underscores l) : x ∈ l := by
  induction l using collapse_underscores.induct with
  | case1 l h ih =>
    rw [collapse_underscores, dif_pos h] at hx
    exact pyReplace_dd_mem l x (ih hx)
  | case2 l h =>
    rw [collapse_underscores, dif_neg h] at hx
    exact hx

/- ## Lemmas about the strip stage of _clean_command_name -/

theorem dropWhile_dw_idem {α} (p : α → Bool) (l : List α) :
    (l.dropWhile p).dropWhile p = l.dropWhile p := by
  induction l with
  | nil => rfl
  | cons c t ih =>
    by_cases hc : p c
    · rw [List.dropWhile_cons_of_pos hc]
      exact ih
    · rw [List.dropWhile_cons_of_neg hc, List.dropWhile_cons_of_neg hc]

theorem fc_cons_iff {α} (p : α → Bool) (c : α) (t : List α) :
    (c :: t).dropWhile p = c :: t ↔ p c = false := by
  constructor
  · intro h
    by_cases hc : p c
    · exfalso
      rw [List.dropWhile_cons_of_pos hc] at h
      have hlen := (List.dropWhile_sublist (l := t) p).length_le
      rw [h] at hlen
      simp at hlen
    · exact Bool.of_not_eq_true hc
  · intro h
    exact List.dropWhile_cons_of_neg (by simp [h])

theorem fc_append_left {α} (p : α → Bool) (y r : List α)
    (h : (y ++ r).dropWhile p = y ++ r) : y.dropWhile p = y := by
  cases y with
  | nil => rfl
  | cons c t =>
    rw [List.cons_append] at h
    have hc := (fc_cons_iff p c (t ++ r)).mp h
    exact (fc_cons_iff p c t).mpr hc

theorem rstrip_append_eq {α} (p : α → Bool) (l : List α) :
    (l.reverse.dropWhile p).reverse ++ (l.reverse.takeWhile p).reverse = l := by
  rw [← List.reverse_append, List.takeWhile_append_dropWhile, List.reverse_reverse]

theorem pyStrip_decomp (l : List Char) :
    ∃ a b, l = a ++ pyStripUnderscore l ++ b := by
  refine ⟨l.takeWhile (fun c => c == '_'),
    ((l.dropWhile (fun c => c == '_')).reverse.takeWhile (fun c => c == '_')).reverse, ?_⟩
  have h1 : pyStripUnderscore l ++
      ((l.dropWhile (fun c => c == '_')).reverse.takeWhile (fun c => c == '_')).reverse =
      l.dropWhile (fun c => c == '_') :=
    rstrip_append_eq (fun c => c == '_') (l.dropWhile (fun c => c == '_'))
  conv_rhs => rw [List.append_assoc, h1]
  rw [List.takeWhile_append_dropWhile]

theorem pyStrip_mem (l : List Char) (x : Char)
    (hx : x ∈ pyStripUnderscore l) : x ∈ l := by
  obtain ⟨a, b, hd⟩ := pyStrip_decomp l
  rw [hd]
  simp only [List.mem_append]
  exact Or.inl (Or.inr hx)

theorem hasDD_pyStrip (l : List Char) (h : hasDD l = false) :
    hasDD (pyStripUnderscore l) = false := by
  cases hs : hasDD (pyStripUnderscore l) with
  | false => rfl
  | true =>
    exfalso
    obtain ⟨a, b, hd⟩ := pyStrip_decomp l
    have htrue := hasDD_append_of a _ b hs
    rw [← hd] at htrue
    rw [htrue] at h
    cases h

theorem pyStrip_idem (l : List Char) :
    pyStripUnderscore (pyStripUnderscore l) = pyStripUnderscore l := by
  have hA : (pyStripUnderscore l).dropWhile (fun c => c == '_') = pyStripUnderscore l := by
    apply fc_append_left (fun c => c == '_') (pyStripUnderscore l)
      (((l.dropWhile (fun c => c == '_')).reverse.takeWhile (fun c => c == '_')).reverse)
    rw [pyStripUnderscore, rstrip_append_eq]
    exact dropWhile_dw_idem _ l
  rw [pyStripUnderscore, hA]
  have hrev : (pyStripUnderscore l).reverse =
      (l.dropWhile (fun c => c == '_')).reverse.dropWhile (fun c => c == '_') := by
    rw [pyStripUnderscore, List.reverse_reverse]
  rw [hrev, dropWhile_dw_idem]
  rw [pyStripUnderscore]

/- ## Character-level lemmas for the sanitize stage -/

theorem char_toNat_ofNat (n : Nat) (h : n < 55296) : (Char.ofNat n).toNat = n := by
  rw [Char.ofNat, dif_pos (Or.inl h : Nat.isValidChar n)]
  rfl

theorem toUpper_toUpper (c : Char) : (Char.toUpper c).toUpper = Char.toUpper c := by
  by_cases h : c.toNat ≥ 97 ∧ c.toNat ≤ 122
  · have h1 : Char.toUpper c = Char.ofNat (c.toNat - 32) := by
      rw [Char.toUpper]
      exact if_pos h
    have h2 : (Char.ofNat (c.toNat - 32)).toNat = c.toNat - 32 :=
      char_toNat_ofNat _ (by omega)
    rw [h1, Char.toUpper, if_neg]
    rw [h2]
    omega
  · have h1 : Char.toUpper c = c := by
      rw [Char.toUpper]
      exact if_neg h
    rw [h1, h1]

/- ## Sanitization (remote.py, NanoleafRemote._clean_command_name)

cleaned = "".join(c if c.isalnum() else "_" for c in name.upper())
while "__" in cleaned: cleaned = cleaned.replace("__", "_")
return cleaned.strip("_") -/

def sanitizeChar (c : Char) : Char :=
  if c.isAlphanum then c else '_'

def cleanChars (l : List Char) : List Char :=
  pyStripUnderscore (collapse_underscores ((l.map Char.toUpper).map sanitizeChar))

def clean_command_name (s : String) : String :=
  String.mk (cleanChars s.data)

theorem sanitize_upper_fix (c0 : Char) :
    sanitizeChar (Char.toUpper (sanitizeChar (Char.toUpper c0))) =
      sanitizeChar (Char.toUpper c0) := by
  by_cases h : (Char.toUpper c0).isAlphanum
  · have h1 : sanitizeChar (Char.toUpper c0) = Char.toUpper c0 := by
      rw [sanitizeChar, if_pos h]
    rw [h1, toUpper_toUpper, h1]
  · have h1 : sanitizeChar (Char.toUpper c0) = '_' := by
      rw [sanitizeChar, if_neg h]
    rw [h1]
    decide

theorem map_self {α} (f : α → α) (l : List α) (h : ∀ x ∈ l, f x = x) :
    l.map f = l := by
  induction l with
  | nil => rfl
  | cons c t ih =>
    rw [List.map_cons, h c (List.mem_cons_self c t), ih]
    intro x hx
    exact h x (List.mem_cons_of_mem c hx)

theorem cleanChars_idem (l : List Char) : cleanChars (cleanChars l) = cleanChars l := by
  have hmem : ∀ c ∈ cleanChars l, ∃ c0, sanitizeChar (Char.toUpper c0) = c := by
    intro c hc
    have h1 := pyStrip_mem _ c hc
    have h2 := collapse_mem _ c h1
    rw [List.map_map] at h2
    obtain ⟨c0, -, hc0⟩ := List.mem_map.mp h2
    exact ⟨c0, hc0⟩
  have h1 : ((cleanChars l).map Char.toUpper).map sanitizeChar = cleanChars l := by
    rw [List.map_map]
    apply map_self
    intro c hc
    obtain ⟨c0, rfl⟩ := hmem c hc
    exact sanitize_upper_fix c0
  have h2 : hasDD (cleanChars l) = false :=
    hasDD_pyStrip _ (hasDD_collapse _)
  rw [cleanChars, h1, collapse_of_not_dd _ h2]
  exact pyStrip_idem _

/-- C4: the sanitization of display names is idempotent. -/
theorem clean_command_name_idem (s : String) :
    clean_command_name (clean_command_name s) = clean_command_name s := by
  show String.mk (cleanChars (String.mk (cleanChars s.data)).data) = String.mk (cleanChars s.data)
  have hdata : (String.mk (cleanChars s.data)).data = cleanChars s.data := rfl
  rw [hdata, cleanChars_idem]

/- ## Device family classification (config.py and client.py)

Both NanoleafConfig._determine_device_type and the method of the same
name on NanoleafDevice classify a device from its model identifier and
its display name.  The Python substring test (pat in s) on the
uppercased strings is embedded through strContains and strUpper. -/

def strContains (sub s : String) : Bool :=
  containsSub sub.data s.data

def strUpper (s : String) : String :=
  String.mk (s.data.map Char.toUpper)

/-- Embedding of NanoleafConfig._determine_device_type: model codes
first, then the five name keywords, then the "panels" fallback. -/
def NanoleafConfig.determine_device_type (model0 name0 : String) : String :=
  if strContains "NL22" (strUpper model0) || strContains "NL42" (strUpper model0) then
    "light_panels"
  else if strContains "NL29" (strUpper model0) then "canvas"
  else if strContains "NL52" (strUpper model0) || strContains "NL59" (strUpper model0) then
    "shapes"
  else if strContains "NL64" (strUpper model0) then "elements"
  else if strContains "NL69" (strUpper model0) then "lines"
  else if strContains "ELEMENTS" (strUpper name0) then "elements"
  else if strContains "CANVAS" (strUpper name0) then "canvas"
  else if strContains "SHAPES" (strUpper name0) then "shapes"
  else if strContains "LINES" (strUpper name0) then "lines"
  else if strContains "STRIP" (strUpper name0) then "strip"
  else "panels"

/-- Embedding of NanoleafDevice._determine_device_type: model codes
first, then only the STRIP name keyword, then the "panels" fallback. -/
def NanoleafDevice.determine_device_type (model0 name0 : String) : String :=
  if strContains "NL22" (strUpper model0) || strContains "NL42" (strUpper model0) then
    "light_panels"
  else if strContains "NL29" (strUpper model0) then "canvas"
  else if strContains "NL52" (strUpper model0) || strContains "NL59" (strUpper model0) then
    "shapes"
  else if strContains "NL64" (strUpper model0) then "elements"
  else if strContains "NL69" (strUpper model0) then "lines"
  else if strContains "STRIP" (strUpper name0) then "strip"
  else "panels"

/-- Classification as the spec describes it: pattern match the model
identifier against the known family codes, fall back to the name
keywords ELEMENTS, CANVAS, SHAPES, LINES, STRIP, and default to
"panels".  First stage of the comparator. -/
def specModelFamily (model : String) : Option String :=
  if strContains "NL22" model || strContains "NL42" model then some "light_panels"
  else if strContains "NL29" model then some "canvas"
  else if strContains "NL52" model || strContains "NL59" model then some "shapes"
  else if strContains "NL64" model then some "elements"
  else if strContains "NL69" model then some "lines"
  else none

/-- Second stage of the comparator: the name keywords of the spec. -/
def specNameFamily (name : String) : Option String :=
  if strContains "ELEMENTS" name then some "elements"
  else if strContains "CANVAS" name then some "canvas"
  else if strContains "SHAPES" name then some "shapes"
  else if strContains "LINES" name then some "lines"
  else if strContains "STRIP" name then some "strip"
  else none

/-- Comparator built from the words of the spec for C6. -/
def spec_family_classification (model0 name0 : String) : String :=
  match specModelFamily (strUpper model0) with
  | some f => f
  | none =>
    match specNameFamily (strUpper name0) with
    | some f => f
    | none => "panels"

set_option maxHeartbeats 2000000 in
theorem spec_family_counterexample :
    NanoleafDevice.determine_device_type "" "My Elements" = "panels" ∧
    spec_family_classification "" "My Elements" = "elements" ∧
    NanoleafConfig.determine_device_type "" "My Elements" = "elements" := by
  refine ⟨?_, ?_, ?_⟩ <;> decide

/-- C6 (amended): the config classifier agrees everywhere with the
classification described by the spec (model codes, then all five name
keywords, then "panels"), while the client classifier consults the model
codes and then only the STRIP name keyword before defaulting to
"panels". -/
theorem determine_device_type_spec (model name : String) :
    NanoleafConfig.determine_device_type model name =
      spec_family_classification model name ∧
    NanoleafDevice.determine_device_type model name =
      (match specModelFamily (strUpper model) with
       | some f => f
       | none => if strContains "STRIP" (strUpper name) then "strip" else "panels") := by
  constructor
  · rw [NanoleafConfig.determine_device_type, spec_family_classification,
      specModelFamily, specNameFamily]
    by_cases h1 : (strContains "NL22" (strUpper model) || strContains "NL42" (strUpper model)) = true
    · rw [if_pos h1, if_pos h1]
    · rw [if_neg h1, if_neg h1]
      by_cases h2 : strContains "NL29" (strUpper model) = true
      · rw [if_pos h2, if_pos h2]
      · rw [if_neg h2, if_neg h2]
        by_cases h3 : (strContains "NL52" (strUpper model) || strContains "NL59" (strUpper model)) = true
        · rw [if_pos h3, if_pos h3]
        · rw [if_neg h3, if_neg h3]
          by_cases h4 : strContains "NL64" (strUpper model) = true
          · rw [if_pos h4, if_pos h4]
          · rw [if_neg h4, if_neg h4]
            by_cases h5 : strContains "NL69" (strUpper model) = true
            · rw [if_pos h5, if_pos h5]
            · rw [if_neg h5, if_neg h5]
              by_cases h6 : strContains "ELEMENTS" (strUpper name) = true
              · rw [if_pos h6, if_pos h6]
              · rw [if_neg h6, if_neg h6]
                by_cases h7 : strContains "CANVAS" (strUpper name) = true
                · rw [if_pos h7, if_pos h7]
                · rw [if_neg h7, if_neg h7]
                  by_cases h8 : strContains "SHAPES" (strUpper name) = true
                  · rw [if_pos h8, if_pos h8]
                  · rw [if_neg h8, if_neg h8]
                    by_cases h9 : strContains "LINES" (strUpper name) = true
                    · rw [if_pos h9, if_pos h9]
                    · rw [if_neg h9, if_neg h9]
                      by_cases h10 : strContains "STRIP" (strUpper name) = true
                      · rw [if_pos h10, if_pos h10]
                      · rw [if_neg h10, if_neg h10]
  · rw [NanoleafDevice.determine_device_type, specModelFamily]
    by_cases h1 : (strContains "NL22" (strUpper model) || strContains "NL42" (strUpper model)) = true
    · rw [if_pos h1, if_pos h1]
    · rw [if_neg h1, if_neg h1]
      by_cases h2 : strContains "NL29" (strUpper model) = true
      · rw [if_pos h2, if_pos h2]
      · rw [if_neg h2, if_neg h2]
        by_cases h3 : (strContains "NL52" (strUpper model) || strContains "NL59" (strUpper model)) = true
        · rw [if_pos h3, if_pos h3]
        · rw [if_neg h3, if_neg h3]
          by_cases h4 : strContains "NL64" (strUpper model) = true
          · rw [if_pos h4, if_pos h4]
          · rw [if_neg h4, if_neg h4]
            by_cases h5 : strContains "NL69" (strUpper model) = true
            · rw [if_pos h5, if_pos h5]
            · rw [if_neg h5, if_neg h5]

/- ## Device capability derivation (client.py NanoleafDevice.__init__ and
config.py NanoleafConfig.add_device)

A raw attribute bag is the JSON dictionary returned by the device.  Only
the parts read by the capability derivation are modelled. -/

structure RawInfo where
  name : String := ""
  model : String := ""
  effectsList : List String := []
  positionData_len : Nat := 0
  hasPanelLayout : Bool := false
deriving DecidableEq

structure DeviceCaps where
  supports_color : Bool
  supports_brightness : Bool
  supports_effects : Bool
  supports_color_temp : Bool
  supports_layout : Bool
  effects_list : List String
deriving DecidableEq

/-- Embedding of the capability part of NanoleafDevice.__init__: with an
attribute bag the flags are derived from the bag, without one every flag
defaults to true and the effect list to empty. -/
def NanoleafDevice.init (device_info : Option RawInfo) : DeviceCaps :=
  match device_info with
  | some info =>
    { supports_color := true
      supports_brightness := true
      supports_effects := info.effectsList.length > 0
      supports_color_temp := true
      supports_layout := info.positionData_len > 0
      effects_list := info.effectsList }
  | none =>
    { supports_color := true
      supports_brightness := true
      supports_effects := true
      supports_color_temp := true
      supports_layout := true
      effects_list := [] }

/-- Embedding of the capability fields computed by
NanoleafConfig.add_device for the persisted device record. -/
def NanoleafConfig.add_device_flags (device_info : RawInfo) : DeviceCaps :=
  { supports_color := true
    supports_brightness := true
    supports_effects := device_info.effectsList.length > 0
    supports_color_temp := true
    supports_layout := device_info.hasPanelLayout
    effects_list := device_info.effectsList }

theorem supports_effects_counterexample :
    (NanoleafDevice.init none).supports_effects = true ∧
    (NanoleafDevice.init none).effects_list = [] :=
  ⟨rfl, rfl⟩

/-- C7 (amended): for a descriptor built from an attribute bag, and for
the record persisted by the configuration, the effects-support flag is
true iff the advertised effect list is non-empty; a descriptor built
without an attribute bag keeps the default flag true although its effect
list is empty. -/
theorem supports_effects_iff (info : RawInfo) :
    ((NanoleafDevice.init (some info)).supports_effects = true ↔ info.effectsList ≠ []) ∧
    (NanoleafDevice.init (some info)).effects_list = info.effectsList ∧
    ((NanoleafConfig.add_device_flags info).supports_effects = true ↔ info.effectsList ≠ []) ∧
    (NanoleafDevice.init none).supports_effects = true ∧
    (NanoleafDevice.init none).effects_list = [] := by
  refine ⟨?_, rfl, ?_, rfl, rfl⟩ <;>
    simp [NanoleafDevice.init, NanoleafConfig.add_device_flags,
      List.length_pos, List.isEmpty_iff]

/- ## Device actions (remote.py, NanoleafRemote._execute_device_action)

The observable outcome of an action is the client call it performs.
Clamping performed by the client setters (set_hue, set_saturation,
set_color_temperature, set_brightness) is part of the outcome. -/

inductive ClientEffect where
  | powerOn : ClientEffect
  | powerOff : ClientEffect
  | toggled : ClientEffect
  | identifyFlash : ClientEffect
  | brightness (value : Nat) : ClientEffect
  | hueSat (hue sat : Nat) : ClientEffect
  | colorTemp (kelvin : Nat) : ClientEffect
  | effect (effect_name : String) : ClientEffect
deriving DecidableEq

def clamp_hue (h : Nat) : Nat := max 0 (min 360 h)
def clamp_sat (s : Nat) : Nat := max 0 (min 100 s)
def clamp_ct (k : Nat) : Nat := max 1200 (min 6500 k)
def clamp_brightness (b : Nat) : Nat := max 1 (min 100 b)

def strStartsWith (pre s : String) : Bool :=
  pre.data.isPrefixOf s.data

def splitUnderscore : List Char → List (List Char)
  | [] => [[]]
  | c :: rest =>
    if c = '_' then [] :: splitUnderscore rest
    else
      match splitUnderscore rest with
      | g :: gs => (c :: g) :: gs
      | [] => [[c]]

def isDigits (p : List Char) : Bool :=
  !p.isEmpty && p.all Char.isDigit

def natOfDigits (p : List Char) : Nat :=
  p.foldl (fun n c => n * 10 + (c.toNat - 48)) 0

def firstNumericPart : List (List Char) → Nat
  | [] => 50
  | p :: ps => if isDigits p then natOfDigits p else firstNumericPart ps

/-- Embedding of the color branch of _execute_device_action (the
color_map dictionary followed by set_hue and set_saturation).  The
elements translation of temperature actions re-enters
_execute_device_action with a COLOR_ action, which always lands in this
branch, so the source recursion is embedded as a call to this
definition. -/
def color_command_effect (action : String) : Option ClientEffect :=
  let color_name := String.mk (pyReplace "COLOR_".data [] action.data)
  if color_name = "RED" then some (ClientEffect.hueSat (clamp_hue 0) (clamp_sat 100))
  else if color_name = "GREEN" then some (ClientEffect.hueSat (clamp_hue 120) (clamp_sat 100))
  else if color_name = "BLUE" then some (ClientEffect.hueSat (clamp_hue 240) (clamp_sat 100))
  else if color_name = "WHITE" then some (ClientEffect.hueSat (clamp_hue 0) (clamp_sat 0))
  else if color_name = "PURPLE" then some (ClientEffect.hueSat (clamp_hue 300) (clamp_sat 100))
  else if color_name = "YELLOW" then some (ClientEffect.hueSat (clamp_hue 60) (clamp_sat 100))
  else if color_name = "WARM" then some (ClientEffect.hueSat (clamp_hue 30) (clamp_sat 50))
  else if color_name = "COOL" then some (ClientEffect.hueSat (clamp_hue 210) (clamp_sat 30))
  else none

def findEffect (effects_list : List String) (effect_name : String) : Option String :=
  match effects_list.find? (fun e => clean_command_name e == clean_command_name effect_name) with
  | some e => some e
  | none => if effect_name ∈ effects_list then some effect_name else none

/-- Embedding of NanoleafRemote._execute_device_action as the client
call it results in (none when the source returns False without a state
call). -/
def execute_device_action (device_type : String) (effects_list : List String)
    (device_brightness : Nat) (action : String) : Option ClientEffect :=
  if action = "ON" then some ClientEffect.powerOn
  else if action = "OFF" then some ClientEffect.powerOff
  else if action = "TOGGLE" then some ClientEffect.toggled
  else if action = "IDENTIFY" then some ClientEffect.identifyFlash
  else if strStartsWith "BRIGHTNESS_" action then
    let b :=
      if containsSub "UP".data action.data then min 100 (device_brightness + 20)
      else if containsSub "DOWN".data action.data then max 1 (device_brightness - 20)
      else firstNumericPart (splitUnderscore action.data)
    some (ClientEffect.brightness (clamp_brightness b))
  else if strStartsWith "COLOR_" action then color_command_effect action
  else if strStartsWith "TEMP_" action then
    if device_type = "elements" then
      if action = "TEMP_WARM" then color_command_effect "COLOR_WARM"
      else if action = "TEMP_COOL" then color_command_effect "COLOR_COOL"
      else if containsSub "2700K".data action.data then color_command_effect "COLOR_WARM"
      else if containsSub "4000K".data action.data || containsSub "6500K".data action.data then
        color_command_effect "COLOR_COOL"
      else none
    else
      let temp_name := String.mk (pyReplace "TEMP_".data [] action.data)
      if temp_name = "WARM" then some (ClientEffect.colorTemp (clamp_ct 2700))
      else if temp_name = "COOL" then some (ClientEffect.colorTemp (clamp_ct 6500))
      else if temp_name = "2700K" then some (ClientEffect.colorTemp (clamp_ct 2700))
      else if temp_name = "4000K" then some (ClientEffect.colorTemp (clamp_ct 4000))
      else if temp_name = "6500K" then some (ClientEffect.colorTemp (clamp_ct 6500))
      else none
  else if strStartsWith "EFFECT_" action then
    match findEffect effects_list
        (String.mk (pyReplace "_".data " ".data (pyReplace "EFFECT_".data [] action.data))) with
    | some e => some (ClientEffect.effect e)
    | none => none
  else none

/-- C8: on the elements family a temperature action is translated to the
nearest color action and has exactly the observable effect of that color
action; on every other family the temperature presets map to their
Kelvin values (WARM 2700, COOL 6500, and the literal 2700K, 4000K,
6500K). -/
theorem temp_action_translation (effects_list : List String) (b : Nat) :
    (execute_device_action "elements" effects_list b "TEMP_WARM" =
        execute_device_action "elements" effects_list b "COLOR_WARM" ∧
      execute_device_action "elements" effects_list b "TEMP_2700K" =
        execute_device_action "elements" effects_list b "COLOR_WARM" ∧
      execute_device_action "elements" effects_list b "TEMP_COOL" =
        execute_device_action "elements" effects_list b "COLOR_COOL" ∧
      execute_device_action "elements" effects_list b "TEMP_4000K" =
        execute_device_action "elements" effects_list b "COLOR_COOL" ∧
      execute_device_action "elements" effects_list b "TEMP_6500K" =
        execute_device_action "elements" effects_list b "COLOR_COOL" ∧
      execute_device_action "elements" effects_list b "TEMP_WARM" =
        some (ClientEffect.hueSat 30 50) ∧
      execute_device_action "elements" effects_list b "TEMP_COOL" =
        some (ClientEffect.hueSat 210 30)) ∧
    (∀ device_type : String, device_type ≠ "elements" →
      execute_device_action device_type effects_list b "TEMP_WARM" =
        some (ClientEffect.colorTemp 2700) ∧
      execute_device_action device_type effects_list b "TEMP_COOL" =
        some (ClientEffect.colorTemp 6500) ∧
      execute_device_action device_type effects_list b "TEMP_2700K" =
        some (ClientEffect.colorTemp 2700) ∧
      execute_device_action device_type effects_list b "TEMP_4000K" =
        some (ClientEffect.colorTemp 4000) ∧
      execute_device_action device_type effects_list b "TEMP_6500K" =
        some (ClientEffect.colorTemp 6500)) := by
  constructor
  · refine ⟨?_, ?_, ?_, ?_, ?_, ?_, ?_⟩ <;>
      simp +decide [execute_device_action, color_command_effect, strStartsWith,
        containsSub, pyReplace, clamp_hue, clamp_sat]
  · intro device_type hdt
    refine ⟨?_, ?_, ?_, ?_, ?_⟩ <;>
      simp +decide [execute_device_action, color_command_effect, strStartsWith,
        containsSub, pyReplace, clamp_ct, hdt]

theorem temp_action_translation_witness :
    execute_device_action "canvas" [] 100 "TEMP_WARM" =
      some (ClientEffect.colorTemp 2700) ∧
    execute_device_action "elements" [] 100 "TEMP_WARM" =
      some (ClientEffect.hueSat 30 50) :=
  ⟨((temp_action_translation [] 100).2 "canvas" (by decide)).1,
   (temp_action_translation [] 100).1.2.2.2.2.2.1⟩

/- ## Command vocabulary (remote.py, NanoleafRemote._generate_simple_commands)

Devices are embedded as the list of the per-device records the loop
reads; the device id only feeds the fallback display name, so the name
is taken as given.  sorted(list(set(commands))) is embedded as dedup
followed by mergeSort. -/

structure RemoteDeviceInfo where
  name : String
  supports_brightness : Bool := true
  supports_color : Bool := true
  supports_color_temp : Bool := true
  supports_effects : Bool := true
  effects_list : List String := []
deriving DecidableEq

/-- Embedding of the effects loop: at most the first ten effects give a
token each. -/
def effect_commands (clean_name : String) (effects_list : List String) : List String :=
  (effects_list.take 10).map (fun effect => clean_name ++ "_EFFECT_" ++ clean_command_name effect)

/-- Tokens contributed by one device in the loop body. -/
def device_commands (d : RemoteDeviceInfo) : List String :=
  [clean_command_name d.name ++ "_ON", clean_command_name d.name ++ "_OFF",
   clean_command_name d.name ++ "_TOGGLE"] ++
  (if d.supports_brightness then
    [clean_command_name d.name ++ "_BRIGHTNESS_UP", clean_command_name d.name ++ "_BRIGHTNESS_DOWN",
     clean_command_name d.name ++ "_BRIGHTNESS_25", clean_command_name d.name ++ "_BRIGHTNESS_50",
     clean_command_name d.name ++ "_BRIGHTNESS_75", clean_command_name d.name ++ "_BRIGHTNESS_100"]
   else []) ++
  (if d.supports_color then
    [clean_command_name d.name ++ "_COLOR_RED", clean_command_name d.name ++ "_COLOR_GREEN",
     clean_command_name d.name ++ "_COLOR_BLUE", clean_command_name d.name ++ "_COLOR_WHITE",
     clean_command_name d.name ++ "_COLOR_WARM", clean_command_name d.name ++ "_COLOR_COOL",
     clean_command_name d.name ++ "_COLOR_PURPLE", clean_command_name d.name ++ "_COLOR_YELLOW"]
   else []) ++
  (if d.supports_color_temp then
    [clean_command_name d.name ++ "_TEMP_WARM", clean_command_name d.name ++ "_TEMP_COOL",
     clean_command_name d.name ++ "_TEMP_2700K", clean_command_name d.name ++ "_TEMP_4000K",
     clean_command_name d.name ++ "_TEMP_6500K"]
   else []) ++
  (if d.supports_effects then effect_commands (clean_command_name d.name) d.effects_list
   else []) ++
  [clean_command_name d.name ++ "_IDENTIFY"]

def sortedDedup (l : List String) : List String :=
  l.dedup.mergeSort (fun a b => a ≤ b)

/-- Embedding of _generate_simple_commands. -/
def generate_simple_commands (devices : List RemoteDeviceInfo) : List String :=
  if devices.isEmpty then ["NO_DEVICES"]
  else
    sortedDedup
      ((devices.flatMap device_commands) ++
        (if devices.length > 1 then ["ALL_ON", "ALL_OFF", "ALL_TOGGLE", "ALL_IDENTIFY"] else []))

theorem mem_sortedDedup (a : String) (l : List String) :
    a ∈ sortedDedup l ↔ a ∈ l := by
  rw [sortedDedup, List.mem_mergeSort, List.mem_dedup]

theorem eq_append_parts (F x s : String) (h : F = x ++ s) :
    x.data = F.data.take (F.data.length - s.data.length) ∧
    s.data = F.data.drop (F.data.length - s.data.length) := by
  have hd : F.data = x.data ++ s.data := by rw [h, String.data_append]
  constructor
  · rw [hd, List.length_append, Nat.add_sub_cancel, List.take_left]
  · rw [hd, List.length_append, Nat.add_sub_cancel, List.drop_left]

theorem contains_mid (a m b F : List Char) (h : a ++ (m ++ b) = F) :
    containsSub m F = true := by
  rw [containsSub, List.any_eq_true]
  refine ⟨m ++ b, ?_, ?_⟩
  · rw [List.mem_tails]
    exact ⟨a, h⟩
  · rw [List.isPrefixOf_iff_prefix]
    exact ⟨b, rfl⟩

theorem effect_token_ne (x y F : String)
    (hF : containsSub "_EFFECT_".data F.data = false) :
    x ++ "_EFFECT_" ++ y ≠ F := by
  intro h
  have hd : x.data ++ ("_EFFECT_".data ++ y.data) = F.data := by
    have h2 := congrArg String.data h
    rw [String.data_append, String.data_append, List.append_assoc] at h2
    exact h2
  rw [contains_mid x.data "_EFFECT_".data y.data F.data hd] at hF
  cases hF

theorem fleet_not_in_device_commands (d : RemoteDeviceInfo)
    (hne : clean_command_name d.name ≠ "ALL") (t : String)
    (ht : t ∈ ["ALL_ON", "ALL_OFF", "ALL_TOGGLE", "ALL_IDENTIFY"]) :
    t ∉ device_commands d := by
  intro h
  fin_cases ht <;>
  by_cases hb : d.supports_brightness = true <;>
  by_cases hc : d.supports_color = true <;>
  by_cases hct : d.supports_color_temp = true <;>
  by_cases hef : d.supports_effects = true <;>
  simp [device_commands, effect_commands, hb, hc, hct, hef] at h <;>
  (repeat' rcases h with h | h) <;>
  first
    | exact absurd (eq_append_parts _ _ _ h).2 (by decide)
    | exact hne (String.ext ((eq_append_parts _ _ _ h).1.trans (by decide)))
    | (obtain ⟨e, -, hee⟩ := List.mem_map.mp (List.mem_of_mem_take h);
       exact effect_token_ne _ _ _ (by decide) hee)

theorem clean_name_all : clean_command_name "All" = "ALL" := by
  simp +decide [clean_command_name, cleanChars, collapse_underscores, pyStripUnderscore,
    sanitizeChar, containsSub]

theorem clean_name_office : clean_command_name "Office" = "OFFICE" := by
  simp +decide [clean_command_name, cleanChars, collapse_underscores, pyStripUnderscore,
    sanitizeChar, containsSub]

theorem clean_name_bedroom : clean_command_name "Bedroom" = "BEDROOM" := by
  simp +decide [clean_command_name, cleanChars, collapse_underscores, pyStripUnderscore,
    sanitizeChar, containsSub]

theorem fleet_tokens_single_all_device :
    ("ALL_ON" ∈ generate_simple_commands [{ name := "All" }] ∧
     "ALL_OFF" ∈ generate_simple_commands [{ name := "All" }] ∧
     "ALL_TOGGLE" ∈ generate_simple_commands [{ name := "All" }] ∧
     "ALL_IDENTIFY" ∈ generate_simple_commands [{ name := "All" }]) ∧
    ([{ name := "All" }] : List RemoteDeviceInfo).length = 1 := by
  refine ⟨⟨?_, ?_, ?_, ?_⟩, rfl⟩ <;>
    simp +decide [generate_simple_commands, mem_sortedDedup, device_commands,
      effect_commands, clean_name_all]

theorem fleet_mem_iff (devices : List RemoteDeviceInfo)
    (hne : ∀ d ∈ devices, clean_command_name d.name ≠ "ALL")
    (t : String) (ht : t ∈ ["ALL_ON", "ALL_OFF", "ALL_TOGGLE", "ALL_IDENTIFY"]) :
    t ∈ generate_simple_commands devices ↔ 2 ≤ devices.length := by
  cases devices with
  | nil =>
    rw [generate_simple_commands]
    have hc : ([] : List RemoteDeviceInfo).isEmpty = true := rfl
    rw [if_pos hc]
    constructor
    · intro h
      exfalso
      fin_cases ht <;> simp at h
    · intro h
      simp at h
  | cons d ds =>
    rw [generate_simple_commands, if_neg (by simp), mem_sortedDedup, List.mem_append]
    constructor
    · rintro (hin | hin)
      · exfalso
        obtain ⟨a, ha, hta⟩ := List.mem_flatMap.mp hin
        exact fleet_not_in_device_commands a (hne a ha) t ht hta
      · by_cases hlen : (d :: ds).length > 1
        · simp only [List.length_cons] at hlen ⊢
          omega
        · rw [if_neg hlen] at hin
          cases hin
    · intro h2
      refine Or.inr ?_
      rw [if_pos (by simp only [List.length_cons] at h2 ⊢; omega)]
      exact ht

/-- C5 (amended): provided no device cleans to the literal name ALL, the
vocabulary contains the fleet tokens ALL_ON, ALL_OFF, ALL_TOGGLE,
ALL_IDENTIFY exactly when at least two devices are present, contains
none of them for a single device, and each device contributes at most
ten effect tokens.  (A single device whose sanitized name is ALL makes
its own power and identify tokens coincide with the fleet tokens.) -/
theorem generate_simple_commands_fleet (devices : List RemoteDeviceInfo)
    (hne : ∀ d ∈ devices, clean_command_name d.name ≠ "ALL") :
    (("ALL_ON" ∈ generate_simple_commands devices ∧
      "ALL_OFF" ∈ generate_simple_commands devices ∧
      "ALL_TOGGLE" ∈ generate_simple_commands devices ∧
      "ALL_IDENTIFY" ∈ generate_simple_commands devices) ↔ 2 ≤ devices.length) ∧
    (devices.length = 1 →
      "ALL_ON" ∉ generate_simple_commands devices ∧
      "ALL_OFF" ∉ generate_simple_commands devices ∧
      "ALL_TOGGLE" ∉ generate_simple_commands devices ∧
      "ALL_IDENTIFY" ∉ generate_simple_commands devices) ∧
    (∀ (clean_name : String) (effects_list : List String),
      (effect_commands clean_name effects_list).length ≤ 10) := by
  have hON := fleet_mem_iff devices hne "ALL_ON" (by decide)
  have hOFF := fleet_mem_iff devices hne "ALL_OFF" (by decide)
  have hTOG := fleet_mem_iff devices hne "ALL_TOGGLE" (by decide)
  have hID := fleet_mem_iff devices hne "ALL_IDENTIFY" (by decide)
  refine ⟨?_, ?_, ?_⟩
  · constructor
    · rintro ⟨h, -, -, -⟩
      exact hON.mp h
    · intro h2
      exact ⟨hON.mpr h2, hOFF.mpr h2, hTOG.mpr h2, hID.mpr h2⟩
  · intro hlen
    refine ⟨?_, ?_, ?_, ?_⟩ <;> intro hmem
    · exact absurd (hON.mp hmem) (by omega)
    · exact absurd (hOFF.mp hmem) (by omega)
    · exact absurd (hTOG.mp hmem) (by omega)
    · exact absurd (hID.mp hmem) (by omega)
  · intro clean_name effects_list
    rw [effect_commands, List.length_map, List.length_take]
    omega

theorem generate_simple_commands_fleet_witness :
    (("ALL_ON" ∈ generate_simple_commands [{ name := "Office" }, { name := "Bedroom" }] ∧
       "ALL_OFF" ∈ generate_simple_commands [{ name := "Office" }, { name := "Bedroom" }] ∧
       "ALL_TOGGLE" ∈ generate_simple_commands [{ name := "Office" }, { name := "Bedroom" }] ∧
       "ALL_IDENTIFY" ∈ generate_simple_commands [{ name := "Office" }, { name := "Bedroom" }]) ↔
        2 ≤ ([{ name := "Office" }, { name := "Bedroom" }] : List RemoteDeviceInfo).length) ∧
      (([{ name := "Office" }, { name := "Bedroom" }] : List RemoteDeviceInfo).length = 1 →
        "ALL_ON" ∉ generate_simple_commands [{ name := "Office" }, { name := "Bedroom" }] ∧
        "ALL_OFF" ∉ generate_simple_commands [{ name := "Office" }, { name := "Bedroom" }] ∧
        "ALL_TOGGLE" ∉ generate_simple_commands [{ name := "Office" }, { name := "Bedroom" }] ∧
        "ALL_IDENTIFY" ∉ generate_simple_commands [{ name := "Office" }, { name := "Bedroom" }]) ∧
      (∀ (clean_name : String) (effects_list : List String),
        (effect_commands clean_name effects_list).length ≤ 10) :=
  generate_simple_commands_fleet [{ name := "Office" }, { name := "Bedroom" }] (by
    intro d hd
    fin_cases hd
    · rw [clean_name_office]; decide
    · rw [clean_name_bedroom]; decide)

/- ## Fleet dispatch (remote.py, NanoleafRemote._execute_global_command)

Every device gets one task; asyncio.gather with return_exceptions=True
delivers one outcome per task (a boolean result or an exception), and
the aggregate is success iff the count of True results is positive.  The
transport outcome of each device is a parameter. -/

inductive TaskOutcome where
  | ok : TaskOutcome
  | failed : TaskOutcome
  | exn : TaskOutcome
deriving DecidableEq, BEq

/-- Action selected by the if/elif chain on the fleet token. -/
def action_for_global (command : String) : Option String :=
  if command = "ALL_ON" then some "turn_on"
  else if command = "ALL_OFF" then some "turn_off"
  else if command = "ALL_TOGGLE" then some "toggle"
  else if command = "ALL_IDENTIFY" then some "identify"
  else none

/-- One task per device; an unknown fleet token contributes none
(continue). -/
def global_tasks (command : String) (devices : List String) : List (String × String) :=
  devices.filterMap (fun device_id =>
    (action_for_global command).map (fun a => (device_id, a)))

/-- Embedding of _execute_global_command: gather all outcomes, count the
True results, succeed iff the count is positive; no tasks means failure. -/
def execute_global_command (command : String) (devices : List String)
    (outcome : String → TaskOutcome) : Bool :=
  let tasks := global_tasks command devices
  if tasks.isEmpty then false
  else decide (0 < (tasks.map (fun t => outcome t.1)).countP (fun r => decide (r = TaskOutcome.ok)))

/-- C2: a fleet command against a non-empty device set creates one task
per device, and the aggregate result is success exactly when at least
one device outcome is a success; a failing or throwing device never
prevents the others from being counted. -/
theorem execute_global_command_spec (command : String) (devices : List String)
    (outcome : String → TaskOutcome)
    (hcmd : command ∈ ["ALL_ON", "ALL_OFF", "ALL_TOGGLE", "ALL_IDENTIFY"])
    (hdev : devices ≠ []) :
    (global_tasks command devices).length = devices.length ∧
    (execute_global_command command devices outcome = true ↔
      ∃ d ∈ devices, outcome d = TaskOutcome.ok) := by
  have hact : ∃ a, action_for_global command = some a := by
    fin_cases hcmd <;> exact ⟨_, rfl⟩
  obtain ⟨a, ha⟩ := hact
  have htasks : global_tasks command devices = devices.map (fun d => (d, a)) := by
    rw [global_tasks, ha]
    exact congrFun (List.filterMap_eq_map (fun d => (d, a))) devices
  constructor
  · rw [htasks, List.length_map]
  · rw [execute_global_command]
    simp only [htasks]
    rw [if_neg (by simp [List.isEmpty_iff, hdev])]
    rw [List.map_map, decide_eq_true_iff, List.countP_pos_iff]
    constructor
    · rintro ⟨r, hr, hok⟩
      obtain ⟨d, hd, rfl⟩ := List.mem_map.mp hr
      exact ⟨d, hd, of_decide_eq_true hok⟩
    · rintro ⟨d, hd, hok⟩
      exact ⟨outcome d, List.mem_map.mpr ⟨d, hd, rfl⟩, decide_eq_true hok⟩

theorem execute_global_command_witness :
    execute_global_command "ALL_ON" ["d1", "d2", "d3"]
      (fun id => if id = "d2" then TaskOutcome.failed else TaskOutcome.ok) = true :=
  (execute_global_command_spec "ALL_ON" ["d1", "d2", "d3"]
    (fun id => if id = "d2" then TaskOutcome.failed else TaskOutcome.ok)
    (by decide) (by decide)).2.mpr ⟨"d1", by decide, by decide⟩

/- ## Setup flow (setup.py, NanoleafSetup)

The SetupAction values returned to the integration API are embedded as
a small inductive; the phase is the string stored in _setup_phase. -/

inductive SetupErrorCode where
  | other : SetupErrorCode
  | timeout : SetupErrorCode
  | notFound : SetupErrorCode
deriving DecidableEq

inductive SetupActionK where
  | complete : SetupActionK
  | error (code : SetupErrorCode) : SetupActionK
  | requestInput : SetupActionK
  | requestConfirmation : SetupActionK
deriving DecidableEq

/-- Devices the user ticked: enumerate the first three discovered
candidates and keep those whose checkbox is set. -/
def selected_from (discovered : List (String × Nat)) (checked : Nat → Bool) :
    List (String × Nat) :=
  (((discovered.take 3).enum).filter (fun p => checked p.1)).map (fun p => p.2)

/-- Embedding of NanoleafSetup._handle_device_selection: empty selection
returns a terminal error leaving phase and stored selection alone,
otherwise the selection is stored and the phase becomes "pairing" with
the confirmation dialog. -/
def handle_device_selection (discovered : List (String × Nat)) (checked : Nat → Bool)
    (phase : String) (prev_selected : List (String × Nat)) :
    SetupActionK × String × List (String × Nat) :=
  if (selected_from discovered checked).isEmpty then
    (SetupActionK.error SetupErrorCode.other, phase, prev_selected)
  else
    (SetupActionK.requestConfirmation, "pairing", selected_from discovered checked)

/-- C9: in the selection phase an empty selection yields a terminal
error and never the pairing phase; a non-empty selection moves to the
pairing phase with the confirmation dialog. -/
theorem handle_device_selection_spec (discovered : List (String × Nat))
    (checked : Nat → Bool) (prev_selected : List (String × Nat)) :
    (selected_from discovered checked = [] →
      handle_device_selection discovered checked "selection" prev_selected =
        (SetupActionK.error SetupErrorCode.other, "selection", prev_selected) ∧
      (handle_device_selection discovered checked "selection" prev_selected).2.1 ≠ "pairing") ∧
    (selected_from discovered checked ≠ [] →
      (handle_device_selection discovered checked "selection" prev_selected).1 =
        SetupActionK.requestConfirmation ∧
      (handle_device_selection discovered checked "selection" prev_selected).2.1 = "pairing" ∧
      (handle_device_selection discovered checked "selection" prev_selected).2.2 =
        selected_from discovered checked) := by
  constructor
  · intro hsel
    rw [handle_device_selection, if_pos (by rw [hsel]; rfl)]
    refine ⟨rfl, ?_⟩
    show ("selection" : String) ≠ "pairing"
    decide
  · intro hsel
    rw [handle_device_selection, if_neg (by simp [List.isEmpty_iff, hsel])]
    exact ⟨rfl, rfl, rfl⟩

theorem handle_device_selection_witness :
    handle_device_selection [("192.168.1.50", 16021)] (fun _ => false) "selection" [] =
      (SetupActionK.error SetupErrorCode.other, "selection", []) ∧
    (handle_device_selection [("192.168.1.50", 16021)] (fun _ => true) "selection" []).2.1 =
      "pairing" :=
  ⟨((handle_device_selection_spec [("192.168.1.50", 16021)] (fun _ => false) []).1
      (by decide)).1,
   ((handle_device_selection_spec [("192.168.1.50", 16021)] (fun _ => true) []).2
      (by decide)).2.1⟩

/- ## Simultaneous pairing (setup.py, NanoleafSetup._execute_simultaneous_pairing)

asyncio.wait_for around asyncio.gather either delivers one outcome per
selected candidate (a token with device info, a None result, or an
exception) or raises TimeoutError before any result is processed; that
event is the timedOut parameter.  The configuration writes happen only
while processing delivered results. -/

inductive PairOutcome where
  | paired (auth_token : String) (info : RawInfo) : PairOutcome
  | noToken : PairOutcome
  | exn : PairOutcome
deriving DecidableEq

def isPaired : PairOutcome → Bool
  | PairOutcome.paired _ _ => true
  | _ => false

/-- Embedding of the device id built by NanoleafConfig.add_device. -/
def device_id_of (ip : String) (port : Nat) : String :=
  String.mk (pyReplace ".".data "_".data ip.data) ++ "_" ++ toString port

/-- Embedding of the update-or-insert performed by
NanoleafConfig.add_device on the devices dictionary, keyed by ip and
port and holding the auth token. -/
def config_add_device (cfg : List (String × String)) (ip : String) (port : Nat)
    (auth_token : String) : List (String × String) :=
  (device_id_of ip port, auth_token) :: cfg.filter (fun p => p.1 != device_id_of ip port)

/-- Embedding of NanoleafSetup._complete_breakthrough_setup: error when
nothing is configured, completion otherwise. -/
def complete_breakthrough_setup (cfg : List (String × String)) : SetupActionK :=
  if cfg.isEmpty then SetupActionK.error SetupErrorCode.notFound
  else SetupActionK.complete

/-- Successful attempts paired with their candidates, in order. -/
def paired_results (selected : List (String × Nat)) (results : List PairOutcome) :
    List ((String × Nat) × String) :=
  (selected.zip results).filterMap
    (fun p => match p.2 with
      | PairOutcome.paired tok _ => some (p.1, tok)
      | _ => none)

/-- Embedding of _execute_simultaneous_pairing: a timeout is a terminal
timeout error before any result is processed; otherwise successes are
persisted one by one and the batch completes iff there is at least one. -/
def execute_simultaneous_pairing (selected : List (String × Nat))
    (results : List PairOutcome) (timedOut : Bool)
    (cfg : List (String × String)) : SetupActionK × List (String × String) :=
  if timedOut then (SetupActionK.error SetupErrorCode.timeout, cfg)
  else
    let cfg2 := (paired_results selected results).foldl
      (fun c q => config_add_device c q.1.1 q.1.2 q.2) cfg
    if (paired_results selected results).isEmpty then
      (SetupActionK.error SetupErrorCode.other, cfg2)
    else
      (complete_breakthrough_setup cfg2, cfg2)

theorem foldl_add_ne_nil (qs : List ((String × Nat) × String))
    (c : List (String × String)) (h : qs ≠ [] ∨ c ≠ []) :
    qs.foldl (fun c q => config_add_device c q.1.1 q.1.2 q.2) c ≠ [] := by
  induction qs generalizing c with
  | nil =>
    rcases h with h | h
    · exact absurd rfl h
    · exact h
  | cons q qs ih =>
    rw [List.foldl_cons]
    exact ih _ (Or.inr (by rw [config_add_device]; exact List.cons_ne_nil _ _))

theorem paired_results_nil_iff (selected : List (String × Nat))
    (results : List PairOutcome) :
    paired_results selected results = [] ↔
      (selected.zip results).any (fun p => isPaired p.2) = false := by
  rw [paired_results, List.filterMap_eq_nil_iff, List.any_eq_false]
  constructor
  · intro h p hp
    have := h p hp
    cases hc : p.2 with
    | paired tok info => rw [hc] at this; cases this
    | noToken => simp [isPaired, hc]
    | exn => simp [isPaired, hc]
  · intro h p hp
    have := h p hp
    cases hc : p.2 with
    | paired tok info => rw [hc] at this; simp [isPaired] at this
    | noToken => rfl
    | exn => rfl

/-- C3: a batch that hits the overall deadline is classified as a
timeout and persists nothing, even if some attempts had already
succeeded individually; without a timeout the batch completes iff at
least one candidate paired, and total failure is a terminal error that
also persists nothing. -/
theorem execute_simultaneous_pairing_spec (selected : List (String × Nat))
    (results : List PairOutcome) (cfg : List (String × String)) :
    (execute_simultaneous_pairing selected results true cfg =
      (SetupActionK.error SetupErrorCode.timeout, cfg)) ∧
    ((execute_simultaneous_pairing selected results false cfg).1 = SetupActionK.complete ↔
      (selected.zip results).any (fun p => isPaired p.2) = true) ∧
    ((selected.zip results).any (fun p => isPaired p.2) = false →
      execute_simultaneous_pairing selected results false cfg =
        (SetupActionK.error SetupErrorCode.other, cfg)) := by
  refine ⟨by rw [execute_simultaneous_pairing]; rw [if_pos rfl], ?_, ?_⟩
  · rw [execute_simultaneous_pairing]
    rw [if_neg (by simp)]
    by_cases hp : paired_results selected results = []
    · rw [if_pos (by rw [hp]; rfl)]
      simp only []
      constructor
      · intro hcon; cases hcon
      · intro hany
        rw [← Bool.not_eq_false, ← paired_results_nil_iff] at hany
        exact absurd hp hany
    · rw [if_neg (by simp [List.isEmpty_iff, hp])]
      simp only []
      constructor
      · intro _
        rw [← Bool.not_eq_false, ← paired_results_nil_iff]
        exact hp
      · intro _
        rw [complete_breakthrough_setup,
          if_neg (by simp [List.isEmpty_iff]; exact foldl_add_ne_nil _ _ (Or.inl hp))]
  · intro hany
    rw [execute_simultaneous_pairing]
    rw [if_neg (by simp)]
    have hp : paired_results selected results = [] := (paired_results_nil_iff _ _).mpr hany
    rw [if_pos (by rw [hp]; rfl), hp]
    rfl

theorem execute_simultaneous_pairing_witness :
    execute_simultaneous_pairing [("192.168.1.50", 16021)] [PairOutcome.exn] true [] =
      (SetupActionK.error SetupErrorCode.timeout, []) ∧
    execute_simultaneous_pairing [("192.168.1.50", 16021)] [PairOutcome.exn] false [] =
      (SetupActionK.error SetupErrorCode.other, []) :=
  ⟨(execute_simultaneous_pairing_spec [("192.168.1.50", 16021)] [PairOutcome.exn] []).1,
   (execute_simultaneous_pairing_spec [("192.168.1.50", 16021)] [PairOutcome.exn] []).2.2
     (by decide)⟩
